import Mathlib

/-!
Verification of the FinanceTracker ledger application (src/app.py)
against its natural-language specification.  The Flask routes are
embedded as pure functions over an explicit database state: Python
floats are modelled as rationals, fallible Python conversions
(datetime.strptime, float) as Option-valued inputs, uncaught Python
exceptions as the error branch of Except, and the SQLAlchemy session
discipline as "the database state changes only when a function returns
.ok" (a raised exception means the pending session is discarded and the
input state survives unchanged).
-/

namespace FinanceTracker

/-- A row of the account table (class Account in src/app.py). -/
structure Account where
  id : Nat
  name : String
  user_id : Nat
deriving DecidableEq

/-- A row of the transaction table (class Transaction in src/app.py).
Float amounts are modelled as rationals; dates are stored as the strings
the routes put in them. -/
structure Transaction where
  id : Nat
  date : String
  type : String
  category : String
  amount : ℚ
  description : String
  account_id : Nat
deriving DecidableEq

/-- The database: both tables plus the next auto-increment primary key of
each (User rows never matter to the engine beyond the authenticated
user_id, so they are not modelled). -/
structure DBState where
  accounts : List Account
  transactions : List Transaction
  next_account_id : Nat
  next_tx_id : Nat
deriving DecidableEq

/-- The Python exceptions the embedded routes can raise. -/
inductive PyError where
  | ValueError
  | AttributeError
deriving DecidableEq

/-- A calendar date as produced by datetime.strptime(date, "%Y-%m-%d"). -/
structure PyDate where
  year : Nat
  month : Nat
  day : Nat
deriving DecidableEq

/-- Zero-padded two-digit rendering, as strftime's %d and %m produce. -/
def pad2 (n : Nat) : String :=
  if n < 10 then "0" ++ toString n else toString n

/-- strftime("%d-%m-%Y") applied to a parsed date. -/
def fmtDMY (d : PyDate) : String :=
  pad2 d.day ++ "-" ++ pad2 d.month ++ "-" ++ toString d.year

/-- The add_transaction form.  The date field carries the outcome of
datetime.strptime(form date, "%Y-%m-%d") — none when parsing raises
ValueError; the amount field carries the outcome of
float(form amount with commas removed) — none when that conversion
raises ValueError. -/
structure AddForm where
  account_id : Nat
  date : Option PyDate
  type : String
  category : String
  amount : Option ℚ
  description : String
deriving DecidableEq

/-- One row of an uploaded spreadsheet as pandas read_excel returns it.
The amount field carries the outcome of float on the Amount cell — none
when that conversion raises ValueError; description is row.get of the
Description column, none when the column is absent. -/
structure Row where
  date : String
  type : String
  category : String
  amount : Option ℚ
  description : Option String
deriving DecidableEq

/-- Route clear_transactions: deletes every transaction of the given
account and commits.  The authenticated user u is never consulted. -/
def clear_transactions (u account_id : Nat) (s : DBState) : DBState :=
  { s with transactions := s.transactions.filter (fun t => t.account_id != account_id) }

/-- Route add_transaction: parses the form and unconditionally inserts
the transaction — no ownership check, no existence check on account_id,
and no sign check on the amount.  A strptime or float failure raises
ValueError before anything is committed. -/
def add_transaction (u : Nat) (f : AddForm) (s : DBState) : Except PyError DBState :=
  match f.date with
  | none => .error .ValueError
  | some d =>
    match f.amount with
    | none => .error .ValueError
    | some q =>
      .ok { s with
            transactions := s.transactions ++
              [⟨s.next_tx_id, fmtDMY d, f.type, f.category, q, f.description, f.account_id⟩],
            next_tx_id := s.next_tx_id + 1 }

/-- Route export: reads every transaction of the given account (no
ownership check) and renders one spreadsheet row per transaction in
store order. -/
def exportRows (u account_id : Nat) (s : DBState) : List Row :=
  (s.transactions.filter (fun t => t.account_id == account_id)).map
    (fun t => ⟨t.date, t.type, t.category, some t.amount, some t.description⟩)

/-- The download name the export route attaches to its CSV payload. -/
def export_download_name : String := "transactions.csv"

/-- Python str.endswith, modelled over the string's character list. -/
def pyEndsWith (s suffix : String) : Bool :=
  suffix.data.isSuffixOf s.data

/-- One Transaction built from one spreadsheet row (the loop body of
the importing route), given the converted amount and the fresh primary
key. -/
def rowToTransaction (account_id txid : Nat) (r : Row) (q : ℚ) : Transaction :=
  ⟨txid, r.date, r.type, r.category, q, r.description.getD "", account_id⟩

/-- The row loop of the import route: stages one pending transaction per
row and raises ValueError at the first row whose amount cell does not
convert (nothing staged so far is ever committed in that case). -/
def insertRows (account_id : Nat) : List Row → DBState → Except PyError DBState
  | [], s => .ok s
  | r :: rs, s =>
    match r.amount with
    | none => .error .ValueError
    | some q =>
      insertRows account_id rs
        { s with
          transactions := s.transactions ++ [rowToTransaction account_id s.next_tx_id r q],
          next_tx_id := s.next_tx_id + 1 }

/-- Route import_excel: acts only when the uploaded filename ends in
".xlsx" (otherwise it silently redirects, flashing nothing); inserts
every row and commits only after the loop, so a ValueError mid-loop
leaves the database at the input state. -/
def import_excel (u account_id : Nat) (filename : String) (rows : List Row)
    (s : DBState) : Except PyError DBState :=
  if pyEndsWith filename ".xlsx" then insertRows account_id rows s
  else .ok s

/-- Route add_account: inserts a new account unless the user already has
one with the same name (silent no-op then). -/
def add_account (u : Nat) (name : String) (s : DBState) : DBState :=
  match s.accounts.find? (fun a => a.user_id == u && a.name == name) with
  | some _ => s
  | none =>
    { s with
      accounts := s.accounts ++ [⟨s.next_account_id, name, u⟩],
      next_account_id := s.next_account_id + 1 }

/-- Route rename_account: renames only when the account exists and its
user_id matches the current user; silent no-op otherwise. -/
def rename_account (u account_id : Nat) (new_name : String) (s : DBState) : DBState :=
  match s.accounts.find? (fun a => a.id == account_id) with
  | none => s
  | some a =>
    if a.user_id == u then
      { s with
        accounts := s.accounts.map
          (fun b => if b.id == account_id then { b with name := new_name } else b) }
    else s

/-- Route delete_account: when the account exists and its user_id matches
the current user, deletes its transactions and then the account in the
same commit; silent no-op otherwise. -/
def delete_account (u account_id : Nat) (s : DBState) : DBState :=
  match s.accounts.find? (fun a => a.id == account_id) with
  | none => s
  | some a =>
    if a.user_id == u then
      { s with
        transactions := s.transactions.filter (fun t => t.account_id != a.id),
        accounts := s.accounts.filter (fun b => b.id != a.id) }
    else s

/-- Account resolution at the top of the dashboard route: an explicitly
selected account is looked up scoped to the current user; with no
selection, the user's first account is used. -/
def selectedAccount (u : Nat) (sel : Option Nat) (s : DBState) : Option Account :=
  match sel with
  | some account_id => s.accounts.find? (fun a => a.id == account_id && a.user_id == u)
  | none => s.accounts.find? (fun a => a.user_id == u)

/-- The resolved account's transactions in store (insertion) order; the
empty list when no account resolved. -/
def accountTransactions (u : Nat) (sel : Option Nat) (s : DBState) : List Transaction :=
  match selectedAccount u sel s with
  | some a => s.transactions.filter (fun t => t.account_id == a.id)
  | none => []

/-- The dashboard type filter; the query argument is none when absent and
Python truthiness also ignores an empty string. -/
def typeFilter (filter_type : Option String) (ts : List Transaction) : List Transaction :=
  match filter_type with
  | none => ts
  | some f => if f = "" then ts else ts.filter (fun t => t.type == f)

/-- The dashboard category filter (exact, case-sensitive equality). -/
def categoryFilter (category : Option String) (ts : List Transaction) : List Transaction :=
  match category with
  | none => ts
  | some c => if c = "" then ts else ts.filter (fun t => t.category == c)

/-- Python sorted(ts, key=k): a stable ascending merge sort by the key. -/
def sortOn {V : Type} [LinearOrder V] (k : Transaction → V) (ts : List Transaction) :
    List Transaction :=
  ts.mergeSort (fun a b => decide (k a ≤ k b))

/-- The dashboard sort: sorted(transactions, key=lambda t: getattr(t,
sort_by)).  getattr dynamically resolves any of the seven Transaction
attributes and raises AttributeError on any other non-empty name; Python
truthiness skips the sort when sort_by is absent or empty. -/
def sortStage (sort_by : Option String) (ts : List Transaction) :
    Except PyError (List Transaction) :=
  match sort_by with
  | none => .ok ts
  | some sb =>
    if sb = "" then .ok ts
    else if sb = "id" then .ok (sortOn (fun t => t.id) ts)
    else if sb = "date" then .ok (sortOn (fun t => t.date) ts)
    else if sb = "type" then .ok (sortOn (fun t => t.type) ts)
    else if sb = "category" then .ok (sortOn (fun t => t.category) ts)
    else if sb = "amount" then .ok (sortOn (fun t => t.amount) ts)
    else if sb = "description" then .ok (sortOn (fun t => t.description) ts)
    else if sb = "account_id" then .ok (sortOn (fun t => t.account_id) ts)
    else .error .AttributeError

/-- The dashboard balance: sum of t.amount when t.type is 'Income' and of
-t.amount otherwise, over the displayed list. -/
def computeBalance (ts : List Transaction) : ℚ :=
  (ts.map (fun t => if t.type == "Income" then t.amount else -t.amount)).sum

/-- Route dashboard: resolve the account, filter by type then category,
sort, and compute the balance of the displayed list. -/
def dashboard (u : Nat) (sel : Option Nat) (filter_type category sort_by : Option String)
    (s : DBState) : Except PyError (List Transaction × ℚ) :=
  match sortStage sort_by (categoryFilter category (typeFilter filter_type
      (accountTransactions u sel s))) with
  | .error e => .error e
  | .ok ts => .ok (ts, computeBalance ts)

/-- The balance formula exactly as the specification words it: +amount
for kind Income plus -amount for kind Expense, over the given sequence
(entries of any other kind contribute nothing). -/
def specBalance (ts : List Transaction) : ℚ :=
  ((ts.filter (fun t => t.type == "Income")).map (fun t => t.amount)).sum
    - ((ts.filter (fun t => t.type == "Expense")).map (fun t => t.amount)).sum

/-- A transaction with its generated primary key forgotten. -/
def projTx (t : Transaction) : String × String × String × ℚ × String × Nat :=
  (t.date, t.type, t.category, t.amount, t.description, t.account_id)

/-- A transaction's content ignoring both the generated id and the
owning account id. -/
def projFields (t : Transaction) : String × String × String × ℚ × String :=
  (t.date, t.type, t.category, t.amount, t.description)

/-- The transactions the import loop stages from a row list, with
primary keys counted from n. -/
def insertedTxs (account_id : Nat) : List Row → Nat → List Transaction
  | [], _ => []
  | r :: rs, n =>
    rowToTransaction account_id n r (r.amount.getD 0) :: insertedTxs account_id rs (n + 1)

/-- What "stable ascending sort by key k" says: the output is pairwise
ordered by the key, is a permutation of the input, and at every key
value the sublist of transactions carrying that value is unchanged
(equal keys keep their input relative order). -/
def stableSortedBy {V : Type} [LinearOrder V] (k : Transaction → V)
    (ts out : List Transaction) : Prop :=
  out.Pairwise (fun a b => k a ≤ k b) ∧ out.Perm ts ∧
    ∀ v : V, out.filter (fun t => decide (k t = v)) = ts.filter (fun t => decide (k t = v))

/-- Database states reachable from the empty initial database through
the engine's state-changing routes (routes whose raised exceptions leave
the state unchanged contribute only their .ok outcomes). -/
inductive Reachable : DBState → Prop where
  | init : Reachable ⟨[], [], 1, 1⟩
  | addAccount (u : Nat) (name : String) {s : DBState} :
      Reachable s → Reachable (add_account u name s)
  | renameAccount (u account_id : Nat) (new_name : String) {s : DBState} :
      Reachable s → Reachable (rename_account u account_id new_name s)
  | deleteAccount (u account_id : Nat) {s : DBState} :
      Reachable s → Reachable (delete_account u account_id s)
  | clearTransactions (u account_id : Nat) {s : DBState} :
      Reachable s → Reachable (clear_transactions u account_id s)
  | addTransaction (u : Nat) (f : AddForm) {s s2 : DBState} :
      Reachable s → add_transaction u f s = .ok s2 → Reachable s2
  | importExcel (u account_id : Nat) (filename : String) (rows : List Row) {s s2 : DBState} :
      Reachable s → import_excel u account_id filename rows s = .ok s2 → Reachable s2

/-- Sample account: account 7 named Savings, owned by user 2. -/
def acct7 : Account := ⟨7, "Savings", 2⟩

/-- Sample transaction: an Income of 100 on account 7. -/
def tx1 : Transaction := ⟨1, "01-01-2024", "Income", "Salary", 100, "", 7⟩

/-- Sample database: user 2 owns account 7 holding one transaction. -/
def s7 : DBState := ⟨[acct7], [tx1], 8, 2⟩

/-- Sample database with a fresh, empty account 9 owned by user 2. -/
def sB : DBState := ⟨[⟨9, "Fresh", 2⟩], [], 10, 1⟩

/-- A spreadsheet row that the spec calls invalid on two counts: its
type is outside Income/Expense and its amount is negative. -/
def badRow : Row := ⟨"garbage", "Foo", "Cat", some (-5), none⟩

/-! Helper lemmas about the import loop. -/

theorem insertRows_ok (account_id : Nat) (rows : List Row) (s : DBState)
    (h : ∀ r ∈ rows, r.amount.isSome = true) :
    insertRows account_id rows s =
      .ok ⟨s.accounts, s.transactions ++ insertedTxs account_id rows s.next_tx_id,
           s.next_account_id, s.next_tx_id + rows.length⟩ := by
  induction rows generalizing s with
  | nil => simp [insertRows, insertedTxs]
  | cons r rs ih =>
    obtain ⟨q, hq⟩ := Option.isSome_iff_exists.mp (h r (List.mem_cons_self r rs))
    have h' : ∀ x ∈ rs, x.amount.isSome = true := fun x hx => h x (List.mem_cons_of_mem r hx)
    simp only [insertRows, hq]
    rw [ih _ h']
    simp [insertedTxs, hq, List.append_assoc]
    omega

theorem insertRows_err (account_id : Nat) (rows : List Row) (s : DBState)
    (h : ¬ ∀ r ∈ rows, r.amount.isSome = true) :
    insertRows account_id rows s = .error .ValueError := by
  induction rows generalizing s with
  | nil => exact absurd (by simp) h
  | cons r rs ih =>
    cases hq : r.amount with
    | none => simp [insertRows, hq]
    | some q =>
      have h' : ¬ ∀ x ∈ rs, x.amount.isSome = true := by
        intro hall
        apply h
        intro x hx
        rcases List.mem_cons.mp hx with h1 | h2
        · rw [h1, hq]; rfl
        · exact hall x h2
      simp only [insertRows, hq]
      exact ih _ h'

theorem insertedTxs_account (account_id : Nat) (rows : List Row) (n : Nat) :
    ∀ t ∈ insertedTxs account_id rows n, t.account_id = account_id := by
  induction rows generalizing n with
  | nil => simp [insertedTxs]
  | cons r rs ih =>
    intro t ht
    rcases List.mem_cons.mp ht with h1 | h2
    · rw [h1]; rfl
    · exact ih (n + 1) t h2

theorem insertedTxs_map_projFields (account_id : Nat) (rows : List Row) (n : Nat) :
    (insertedTxs account_id rows n).map projFields
      = rows.map (fun r => (r.date, r.type, r.category, r.amount.getD 0, r.description.getD "")) := by
  induction rows generalizing n with
  | nil => rfl
  | cons r rs ih => simp [insertedTxs, projFields, rowToTransaction, ih]

/-! Claim C10. -/

/-- C10 (confirmed): an import whose uploaded filename does not end in
".xlsx" is a silent no-op: no error is raised, no transaction is
inserted, and the database state is returned unchanged. -/
theorem C10_import_non_xlsx_silent_noop (u account_id : Nat) (filename : String)
    (rows : List Row) (s : DBState) (h : pyEndsWith filename ".xlsx" = false) :
    (import_excel u account_id filename rows s) = .ok s := by
  simp [import_excel, h]

/-- Witness for C10 at the filename the export route itself produces. -/
theorem C10_import_non_xlsx_silent_noop_witness :
    pyEndsWith "transactions.csv" ".xlsx" = false ∧
    (import_excel 1 7 "transactions.csv" [badRow] s7 = .ok s7) :=
  ⟨by decide, C10_import_non_xlsx_silent_noop 1 7 "transactions.csv" [badRow] s7 (by decide)⟩

/-! Claim C1. -/

/-- C1 (counterexample): user 1 does not own account 7 — it belongs to
user 2 — yet clear_transactions invoked by user 1 deletes the account's
transactions instead of failing with NotOwned, changing the ledger
state, and export invoked by user 1 returns the account's data. -/
theorem C1_counterexample :
    (clear_transactions 1 7 s7).transactions = [] ∧
    clear_transactions 1 7 s7 ≠ s7 ∧
    exportRows 1 7 s7 = [⟨"01-01-2024", "Income", "Salary", some 100, some ""⟩] :=
  ⟨by decide, by decide, by decide⟩

/-- C1 (amended): clear_transactions, export and import_excel perform no
ownership check at all — their outcome is independent of the invoking
user, and clear_transactions unconditionally deletes the account's
transactions — whereas rename_account and delete_account do check
ownership and leave the state unchanged for a non-owner. -/
theorem C1_amended (u v account_id : Nat) (filename : String) (rows : List Row)
    (new_name : String) (s : DBState)
    (hguard : ∀ a ∈ s.accounts, a.id = account_id → a.user_id ≠ u) :
    clear_transactions u account_id s = clear_transactions v account_id s ∧
    (clear_transactions u account_id s).transactions
      = s.transactions.filter (fun t => t.account_id != account_id) ∧
    exportRows u account_id s = exportRows v account_id s ∧
    (import_excel u account_id filename rows s
      = import_excel v account_id filename rows s) ∧
    rename_account u account_id new_name s = s ∧
    delete_account u account_id s = s := by
  refine ⟨rfl, rfl, rfl, rfl, ?_, ?_⟩
  · unfold rename_account
    cases hfind : s.accounts.find? (fun a => a.id == account_id) with
    | none => rfl
    | some a =>
      have hne : a.user_id ≠ u :=
        hguard a (List.mem_of_find?_eq_some hfind) (by simpa using List.find?_some hfind)
      simp [beq_eq_false_iff_ne.mpr hne]
  · unfold delete_account
    cases hfind : s.accounts.find? (fun a => a.id == account_id) with
    | none => rfl
    | some a =>
      have hne : a.user_id ≠ u :=
        hguard a (List.mem_of_find?_eq_some hfind) (by simpa using List.find?_some hfind)
      simp [beq_eq_false_iff_ne.mpr hne]

/-- Witness for C1 (amended): user 1 against user 2's account 7. -/
theorem C1_amended_witness :
    (∀ a ∈ s7.accounts, a.id = 7 → a.user_id ≠ 1) ∧
    (clear_transactions 1 7 s7 = clear_transactions 3 7 s7 ∧
     (clear_transactions 1 7 s7).transactions
       = s7.transactions.filter (fun t => t.account_id != 7) ∧
     exportRows 1 7 s7 = exportRows 3 7 s7 ∧
     (import_excel 1 7 "upload.xlsx" [badRow] s7
       = import_excel 3 7 "upload.xlsx" [badRow] s7) ∧
     rename_account 1 7 "Stolen" s7 = s7 ∧
     delete_account 1 7 s7 = s7) :=
  ⟨by decide, C1_amended 1 3 7 "upload.xlsx" [badRow] "Stolen" s7 (by decide)⟩

/-! Claim C2. -/

/-- C2 (counterexample): a one-row payload whose row is invalid by the
spec's criteria — type "Foo" outside Income/Expense and a negative
amount — is nevertheless persisted in full by the import route: one
transaction is inserted and no ImportRejected error of any kind is
produced. -/
theorem C2_counterexample :
    (import_excel 1 7 "upload.xlsx" [badRow] s7
      = .ok ⟨[acct7], [tx1, ⟨2, "garbage", "Foo", "Cat", -5, "", 7⟩], 8, 3⟩) ∧
    ("Foo" ≠ "Income" ∧ "Foo" ≠ "Expense" ∧ (-5 : ℚ) < 0) :=
  ⟨rfl, by decide⟩

/-- C2 (amended): the import route performs no per-row validation of
date, type, or amount sign: it persists every row whose Amount cell
converts via float, in one commit after the whole loop, and when any
Amount cell fails to convert it raises an uncaught ValueError and
persists nothing — there is no ImportRejected carrying a row-error
list and no inserted-row count is returned. -/
theorem C2_amended (u account_id : Nat) (filename : String) (rows : List Row) (s : DBState)
    (hx : pyEndsWith filename ".xlsx" = true) :
    ((∀ r ∈ rows, r.amount.isSome = true) →
      (import_excel u account_id filename rows s) =
        .ok ⟨s.accounts, s.transactions ++ insertedTxs account_id rows s.next_tx_id,
             s.next_account_id, s.next_tx_id + rows.length⟩) ∧
    ((¬ ∀ r ∈ rows, r.amount.isSome = true) →
      (import_excel u account_id filename rows s) = .error .ValueError) := by
  constructor
  · intro h
    simp only [import_excel, hx, if_true]
    exact insertRows_ok account_id rows s h
  · intro h
    simp only [import_excel, hx, if_true]
    exact insertRows_err account_id rows s h

/-- Witness for C2 (amended): the spec-invalid row of C2's
counterexample converts, so it is persisted wholesale. -/
theorem C2_amended_witness :
    pyEndsWith "upload.xlsx" ".xlsx" = true ∧
    (∀ r ∈ [badRow], r.amount.isSome = true) ∧
    (import_excel 1 7 "upload.xlsx" [badRow] s7
      = .ok ⟨s7.accounts, s7.transactions ++ insertedTxs 7 [badRow] s7.next_tx_id,
             s7.next_account_id, s7.next_tx_id + [badRow].length⟩) :=
  ⟨by decide, by decide,
    (C2_amended 1 7 "upload.xlsx" [badRow] s7 (by decide)).1 (by decide)⟩

/-! Claim C4. -/

/-- C4 (counterexample): a negative amount is accepted and persisted:
add_transaction stores a transaction with amount -5, and the import loop
stages the negative-amount row of badRow as well — no validation error
occurs in either path. -/
theorem C4_counterexample :
    (add_transaction 1 ⟨7, some ⟨2024, 1, 1⟩, "Expense", "Food", some (-5), ""⟩ s7
      = .ok ⟨[acct7], [tx1, ⟨2, "01-01-2024", "Expense", "Food", -5, "", 7⟩], 8, 3⟩) ∧
    (-5 : ℚ) < 0 ∧
    (import_excel 1 7 "neg.xlsx" [badRow] s7
      = .ok ⟨[acct7], [tx1, ⟨2, "garbage", "Foo", "Cat", -5, "", 7⟩], 8, 3⟩) :=
  ⟨rfl, by decide, rfl⟩

/-- C4 (amended): no sign check exists: add_transaction persists exactly
the amount the form conversion produced — negative values included — so
the amount-nonnegativity invariant fails on reachable ledger states. -/
theorem C4_amended (u : Nat) (f : AddForm) (s : DBState) (d : PyDate) (q : ℚ)
    (hd : f.date = some d) (hq : f.amount = some q) :
    add_transaction u f s =
      .ok { s with
            transactions := s.transactions ++
              [⟨s.next_tx_id, fmtDMY d, f.type, f.category, q, f.description, f.account_id⟩],
            next_tx_id := s.next_tx_id + 1 } := by
  simp [add_transaction, hd, hq]

/-- Witness for C4 (amended) at amount -5. -/
theorem C4_amended_witness :
    ((⟨7, some ⟨2024, 1, 1⟩, "Expense", "Food", some (-5), ""⟩ : AddForm).date
        = some ⟨2024, 1, 1⟩) ∧
    ((⟨7, some ⟨2024, 1, 1⟩, "Expense", "Food", some (-5), ""⟩ : AddForm).amount
        = some (-5)) ∧
    add_transaction 1 (⟨7, some ⟨2024, 1, 1⟩, "Expense", "Food", some (-5), ""⟩ : AddForm) s7
      = .ok { s7 with
              transactions := s7.transactions ++
                [⟨s7.next_tx_id, fmtDMY ⟨2024, 1, 1⟩, "Expense", "Food", -5, "", 7⟩],
              next_tx_id := s7.next_tx_id + 1 } :=
  ⟨rfl, rfl, C4_amended 1 _ s7 ⟨2024, 1, 1⟩ (-5) rfl rfl⟩

/-! Claim C8. -/

/-- C8 (counterexample): from the empty database, add_transaction with
nonexistent target account 1 reaches a state holding a transaction that
references no existing account, so the global no-orphan invariant the
claim asserts for all reachable states fails. -/
theorem C8_counterexample :
    Reachable ⟨[], [⟨1, "01-01-2024", "Income", "Pay", 5, "", 1⟩], 1, 2⟩ ∧
    (⟨[], [⟨1, "01-01-2024", "Income", "Pay", 5, "", 1⟩], 1, 2⟩ : DBState).accounts = [] ∧
    (⟨[], [⟨1, "01-01-2024", "Income", "Pay", 5, "", 1⟩], 1, 2⟩ : DBState).transactions ≠ [] :=
  ⟨Reachable.addTransaction 1 ⟨1, some ⟨2024, 1, 1⟩, "Income", "Pay", some 5, ""⟩
      Reachable.init rfl,
   rfl, by decide⟩

/-- C8 (amended): deleting an owned account does cascade in its single
step — afterwards no transaction referencing the deleted account id
remains and the account row itself is gone — but the global no-orphan
invariant does not hold, because add_transaction and the import loop
never check that their target account exists. -/
theorem C8_amended (u account_id : Nat) (s : DBState) (a : Account)
    (hfind : s.accounts.find? (fun b => b.id == account_id) = some a)
    (hown : a.user_id = u) :
    (delete_account u account_id s).transactions.filter
        (fun t => t.account_id == account_id) = [] ∧
    (delete_account u account_id s).accounts.filter
        (fun b => b.id == account_id) = [] := by
  have hid : a.id = account_id := by simpa using List.find?_some hfind
  unfold delete_account
  rw [hfind]
  subst hid
  subst hown
  simp [List.filter_filter]

/-- Witness for C8 (amended): owner 2 deletes account 7. -/
theorem C8_amended_witness :
    (s7.accounts.find? (fun b => b.id == 7) = some acct7) ∧ acct7.user_id = 2 ∧
    ((delete_account 2 7 s7).transactions.filter (fun t => t.account_id == 7) = [] ∧
     (delete_account 2 7 s7).accounts.filter (fun b => b.id == 7) = []) :=
  ⟨rfl, rfl, C8_amended 2 7 s7 acct7 rfl rfl⟩

/-! Claim C5. -/

/-- C5 (counterexample): the export route names its payload
transactions.csv, but the import route only acts on filenames ending in
".xlsx", so re-importing an exported payload into the fresh empty
account 9 is a silent no-op: account 9 receives nothing although the
source account 7 is non-empty — the round trip fails. -/
theorem C5_counterexample :
    (import_excel 2 9 export_download_name (exportRows 2 7 s7) sB = .ok sB) ∧
    sB.transactions = [] ∧ s7.transactions ≠ [] :=
  ⟨rfl, rfl, by decide⟩

theorem exportRows_amount_isSome (u account_id : Nat) (s : DBState) :
    ∀ r ∈ exportRows u account_id s, r.amount.isSome = true := by
  intro r hr
  simp only [exportRows] at hr
  rcases List.mem_map.mp hr with ⟨t, ht, rfl⟩
  rfl

/-- C5 (amended): the exported row list itself is round-trippable — fed
back to the import route under an ".xlsx" filename and a fresh account
with no transactions, it reproduces the source account's transaction
list exactly, ignoring generated ids and the account column — but the
payload the export route actually serves is named transactions.csv,
which the import route silently ignores. -/
theorem C5_amended (u v account_id target_id : Nat) (filename : String) (sA sF : DBState)
    (hx : pyEndsWith filename ".xlsx" = true)
    (hfresh : sF.transactions.filter (fun t => t.account_id == target_id) = []) :
    (import_excel v target_id filename (exportRows u account_id sA) sF
      = .ok ⟨sF.accounts,
             sF.transactions ++
               insertedTxs target_id (exportRows u account_id sA) sF.next_tx_id,
             sF.next_account_id, sF.next_tx_id + (exportRows u account_id sA).length⟩) ∧
    ((sF.transactions ++
        insertedTxs target_id (exportRows u account_id sA) sF.next_tx_id).filter
          (fun t => t.account_id == target_id)).map projFields
      = (sA.transactions.filter (fun t => t.account_id == account_id)).map projFields := by
  constructor
  · simp only [import_excel, hx, if_true]
    exact insertRows_ok target_id _ sF (exportRows_amount_isSome u account_id sA)
  · rw [List.filter_append, hfresh, List.nil_append]
    rw [List.filter_eq_self.mpr
        (fun t ht => by simpa using insertedTxs_account target_id _ _ t ht)]
    rw [insertedTxs_map_projFields]
    simp only [exportRows, List.map_map]
    rfl

/-- Witness for C5 (amended): account 7's export re-imported into the
fresh account 9 under an .xlsx name. -/
theorem C5_amended_witness :
    pyEndsWith "roundtrip.xlsx" ".xlsx" = true ∧
    sB.transactions.filter (fun t => t.account_id == 9) = [] ∧
    ((import_excel 2 9 "roundtrip.xlsx" (exportRows 2 7 s7) sB
       = .ok ⟨sB.accounts,
              sB.transactions ++ insertedTxs 9 (exportRows 2 7 s7) sB.next_tx_id,
              sB.next_account_id, sB.next_tx_id + (exportRows 2 7 s7).length⟩) ∧
     ((sB.transactions ++ insertedTxs 9 (exportRows 2 7 s7) sB.next_tx_id).filter
         (fun t => t.account_id == 9)).map projFields
       = (s7.transactions.filter (fun t => t.account_id == 7)).map projFields) :=
  ⟨by decide, rfl, C5_amended 2 2 7 9 "roundtrip.xlsx" s7 sB (by decide) rfl⟩

/-! Claim C6. -/

/-- C6 (counterexample): sort key "account_id" is outside the spec's
fixed set {date, kind, category, amount, description}, yet the dashboard
resolves it dynamically and succeeds instead of failing with a
validation error. -/
theorem C6_counterexample :
    dashboard 2 (some 7) none none (some "account_id") s7 = .ok ([tx1], 100) ∧
    ("account_id" ∉ (["date", "type", "category", "amount", "description"] : List String)) := by
  constructor
  · simp only [dashboard]
    norm_num [sortStage, sortOn, accountTransactions, selectedAccount, s7, typeFilter,
      categoryFilter, computeBalance, tx1, acct7]
  · decide

/-- C6 (amended): the sort key is resolved dynamically over the seven
Transaction attributes instead of being validated against the spec's
five: every attribute name — id and account_id included, both outside
the spec's set — sorts successfully; only a non-empty name that is not
an attribute fails, and then with AttributeError rather than a
validation error; with no sort key (or an empty one) the insertion
order is returned unchanged. -/
theorem C6_amended (ts : List Transaction) (sb : String) (hne : sb ≠ "")
    (hnotattr : sb ∉ (["id", "date", "type", "category", "amount",
      "description", "account_id"] : List String)) :
    sortStage none ts = .ok ts ∧
    sortStage (some "") ts = .ok ts ∧
    sortStage (some sb) ts = .error .AttributeError ∧
    (∀ attr ∈ (["id", "date", "type", "category", "amount", "description",
        "account_id"] : List String), ∃ out, sortStage (some attr) ts = .ok out) := by
  simp only [List.mem_cons, List.not_mem_nil, or_false, not_or] at hnotattr
  obtain ⟨h1, h2, h3, h4, h5, h6, h7⟩ := hnotattr
  refine ⟨rfl, rfl, ?_, ?_⟩
  · simp [sortStage, hne, h1, h2, h3, h4, h5, h6, h7]
  · intro attr ha
    simp only [List.mem_cons, List.not_mem_nil, or_false] at ha
    rcases ha with rfl | rfl | rfl | rfl | rfl | rfl | rfl
    · exact ⟨_, rfl⟩
    · exact ⟨_, rfl⟩
    · exact ⟨_, rfl⟩
    · exact ⟨_, rfl⟩
    · exact ⟨_, rfl⟩
    · exact ⟨_, rfl⟩
    · exact ⟨_, rfl⟩

/-- Witness for C6 (amended): the spec's own attribute name "kind" is
not a Transaction attribute in the code, so it raises AttributeError. -/
theorem C6_amended_witness :
    ("kind" ≠ "") ∧
    ("kind" ∉ (["id", "date", "type", "category", "amount", "description",
        "account_id"] : List String)) ∧
    (sortStage none [tx1] = .ok [tx1] ∧
     sortStage (some "") [tx1] = .ok [tx1] ∧
     sortStage (some "kind") [tx1] = .error .AttributeError ∧
     (∀ attr ∈ (["id", "date", "type", "category", "amount", "description",
         "account_id"] : List String), ∃ out, sortStage (some attr) [tx1] = .ok out)) :=
  ⟨by decide, by decide, C6_amended [tx1] "kind" (by decide) (by decide)⟩

/-! Claim C7. -/

theorem typeFilter_sublist (ft : Option String) (ts : List Transaction) :
    (typeFilter ft ts).Sublist ts := by
  cases ft with
  | none => exact List.Sublist.refl ts
  | some f =>
    by_cases hf : f = ""
    · simp [typeFilter, hf]
    · simp only [typeFilter, if_neg hf]
      exact List.filter_sublist ts

theorem categoryFilter_sublist (cat : Option String) (ts : List Transaction) :
    (categoryFilter cat ts).Sublist ts := by
  cases cat with
  | none => exact List.Sublist.refl ts
  | some c =>
    by_cases hc : c = ""
    · simp [categoryFilter, hc]
    · simp only [categoryFilter, if_neg hc]
      exact List.filter_sublist ts

/-- C7 (confirmed): the dashboard filters return an order-preserving
subsequence of the input; each filter is optional; the type filter
matches the kind exactly, the category filter matches the category by
exact case-sensitive string equality, and when both are present they
compose with AND semantics. -/
theorem C7_filter_contract (ts : List Transaction) (ft cat : Option String) (f c : String)
    (hf : f ≠ "") (hc : c ≠ "") :
    (categoryFilter cat (typeFilter ft ts)).Sublist ts ∧
    typeFilter none ts = ts ∧
    categoryFilter none ts = ts ∧
    typeFilter (some f) ts = ts.filter (fun t => t.type == f) ∧
    categoryFilter (some c) ts = ts.filter (fun t => t.category == c) ∧
    categoryFilter (some c) (typeFilter (some f) ts)
      = ts.filter (fun t => t.type == f && t.category == c) := by
  refine ⟨(categoryFilter_sublist cat _).trans (typeFilter_sublist ft ts), rfl, rfl, ?_, ?_, ?_⟩
  · simp only [typeFilter, if_neg hf]
  · simp only [categoryFilter, if_neg hc]
  · simp only [typeFilter, categoryFilter, if_neg hf, if_neg hc, List.filter_filter]
    exact List.filter_congr fun t _ => Bool.and_comm _ _

/-- Witness for C7 on the sample ledger, filtering kind Income and
category Salary. -/
theorem C7_filter_contract_witness :
    ("Income" ≠ "") ∧ ("Salary" ≠ "") ∧
    ((categoryFilter (some "Salary") (typeFilter (some "Income") s7.transactions)).Sublist
        s7.transactions ∧
     typeFilter none s7.transactions = s7.transactions ∧
     categoryFilter none s7.transactions = s7.transactions ∧
     typeFilter (some "Income") s7.transactions
       = s7.transactions.filter (fun t => t.type == "Income") ∧
     categoryFilter (some "Salary") s7.transactions
       = s7.transactions.filter (fun t => t.category == "Salary") ∧
     categoryFilter (some "Salary") (typeFilter (some "Income") s7.transactions)
       = s7.transactions.filter (fun t => t.type == "Income" && t.category == "Salary")) :=
  ⟨by decide, by decide,
    C7_filter_contract s7.transactions (some "Income") (some "Salary") "Income" "Salary"
      (by decide) (by decide)⟩

/-! Claim C9. -/

theorem sortOn_stable {V : Type} [LinearOrder V] (k : Transaction → V)
    (ts : List Transaction) : stableSortedBy k ts (sortOn k ts) := by
  have htrans : ∀ a b c : Transaction, decide (k a ≤ k b) = true →
      decide (k b ≤ k c) = true → decide (k a ≤ k c) = true := by
    intro a b c h1 h2
    simp only [decide_eq_true_eq] at h1 h2 ⊢
    exact le_trans h1 h2
  have htotal : ∀ a b : Transaction,
      (decide (k a ≤ k b) || decide (k b ≤ k a)) = true := by
    intro a b
    simp only [Bool.or_eq_true, decide_eq_true_eq]
    exact le_total _ _
  refine ⟨?_, List.mergeSort_perm ts _, ?_⟩
  · exact (List.sorted_mergeSort htrans htotal ts).imp fun h => decide_eq_true_eq.mp h
  · intro v
    have hpw : (ts.filter (fun t => decide (k t = v))).Pairwise
        (fun a b => decide (k a ≤ k b) = true) := by
      apply List.pairwise_of_forall_mem_list
      intro a ha b hb
      have ha' : k a = v := by simpa using (List.mem_filter.mp ha).2
      have hb' : k b = v := by simpa using (List.mem_filter.mp hb).2
      simp [ha', hb']
    have h1 : List.Sublist (ts.filter (fun t => decide (k t = v))) (sortOn k ts) :=
      List.sublist_mergeSort htrans htotal hpw (List.filter_sublist ts)
    have h2 := h1.filter (fun t => decide (k t = v))
    rw [List.filter_eq_self.mpr (fun a ha => (List.mem_filter.mp ha).2)] at h2
    have hperm : List.Perm ((sortOn k ts).filter (fun t => decide (k t = v)))
        (ts.filter (fun t => decide (k t = v))) :=
      (List.mergeSort_perm ts _).filter _
    exact (h2.eq_of_length hperm.length_eq.symm).symm

/-- C9 (confirmed): for each of the five valid sort keys the dashboard
sort is stable and ascending: the output is pairwise ordered by the key,
a permutation of the input, and at every key value the sublist of
transactions carrying that value — hence the relative order of
equal-key transactions — is exactly that of the input. -/
theorem C9_sort_stable_ascending (ts : List Transaction) :
    (sortStage (some "date") ts = .ok (sortOn (fun t => t.date) ts) ∧
      stableSortedBy (fun t => t.date) ts (sortOn (fun t => t.date) ts)) ∧
    (sortStage (some "type") ts = .ok (sortOn (fun t => t.type) ts) ∧
      stableSortedBy (fun t => t.type) ts (sortOn (fun t => t.type) ts)) ∧
    (sortStage (some "category") ts = .ok (sortOn (fun t => t.category) ts) ∧
      stableSortedBy (fun t => t.category) ts (sortOn (fun t => t.category) ts)) ∧
    (sortStage (some "amount") ts = .ok (sortOn (fun t => t.amount) ts) ∧
      stableSortedBy (fun t => t.amount) ts (sortOn (fun t => t.amount) ts)) ∧
    (sortStage (some "description") ts = .ok (sortOn (fun t => t.description) ts) ∧
      stableSortedBy (fun t => t.description) ts (sortOn (fun t => t.description) ts)) :=
  ⟨⟨rfl, sortOn_stable _ _⟩, ⟨rfl, sortOn_stable _ _⟩, ⟨rfl, sortOn_stable _ _⟩,
   ⟨rfl, sortOn_stable _ _⟩, ⟨rfl, sortOn_stable _ _⟩⟩

/-! Claim C3. -/

theorem sortStage_perm {sort_by : Option String} {ts out : List Transaction}
    (h : sortStage sort_by ts = .ok out) : out.Perm ts := by
  cases sort_by with
  | none =>
    simp only [sortStage] at h
    injection h with h
    subst h
    exact List.Perm.refl _
  | some sb =>
    simp only [sortStage] at h
    repeat' split at h
    all_goals first
      | (injection h with h
         subst h
         first
           | exact List.Perm.refl _
           | exact List.mergeSort_perm _ _)
      | (simp at h)

theorem accountTransactions_sublist (u : Nat) (sel : Option Nat) (s : DBState) :
    (accountTransactions u sel s).Sublist s.transactions := by
  unfold accountTransactions
  cases selectedAccount u sel s with
  | some a => exact List.filter_sublist _
  | none => exact List.nil_sublist _

theorem computeBalance_congr_perm {ts1 ts2 : List Transaction} (h : ts1.Perm ts2) :
    computeBalance ts1 = computeBalance ts2 :=
  List.Perm.sum_eq (h.map _)

theorem computeBalance_cons (t : Transaction) (rest : List Transaction) :
    computeBalance (t :: rest)
      = (if t.type == "Income" then t.amount else -t.amount) + computeBalance rest := by
  simp [computeBalance]

theorem specBalance_cons (t : Transaction) (rest : List Transaction) :
    specBalance (t :: rest)
      = ((if t.type == "Income" then t.amount else 0)
          - (if t.type == "Expense" then t.amount else 0)) + specBalance rest := by
  by_cases hI : t.type == "Income" <;> by_cases hE : t.type == "Expense" <;>
    simp [specBalance, List.filter_cons, hI, hE] <;> ring

theorem computeBalance_eq_specBalance (ts : List Transaction) :
    (∀ t ∈ ts, t.type = "Income" ∨ t.type = "Expense") →
    computeBalance ts = specBalance ts := by
  induction ts with
  | nil => intro _; simp [computeBalance, specBalance]
  | cons t rest ih =>
    intro h
    have ht := h t (List.mem_cons_self t rest)
    have hrest := ih (fun x hx => h x (List.mem_cons_of_mem t hx))
    rw [computeBalance_cons, specBalance_cons, hrest]
    rcases ht with h1 | h1 <;> rw [h1] <;> simp

/-- C3 (confirmed): over the closed transaction-kind set of the data
model, the dashboard balance equals the spec's signed sum taken over
exactly the filtered sequence, not the full account (the sorted view it
is computed on is a permutation of the filtered sequence, which leaves
the sum unchanged), and the balance of an empty sequence is 0. -/
theorem C3_balance_over_filtered (u : Nat) (sel : Option Nat)
    (filter_type category sort_by : Option String) (s : DBState)
    (ts : List Transaction) (bal : ℚ)
    (hkinds : ∀ t ∈ s.transactions, t.type = "Income" ∨ t.type = "Expense")
    (hrun : dashboard u sel filter_type category sort_by s = .ok (ts, bal)) :
    bal = specBalance (categoryFilter category (typeFilter filter_type
        (accountTransactions u sel s))) ∧
    computeBalance [] = 0 ∧ specBalance [] = 0 := by
  refine ⟨?_, rfl, by simp [specBalance]⟩
  unfold dashboard at hrun
  cases hsort : sortStage sort_by (categoryFilter category (typeFilter filter_type
      (accountTransactions u sel s))) with
  | error e => rw [hsort] at hrun; cases hrun
  | ok out =>
    rw [hsort] at hrun
    injection hrun with hpair
    injection hpair with h1 h2
    subst h1
    subst h2
    have hperm := sortStage_perm hsort
    have hmem : ∀ t ∈ categoryFilter category (typeFilter filter_type
        (accountTransactions u sel s)), t.type = "Income" ∨ t.type = "Expense" :=
      fun t htm => hkinds t (List.Sublist.subset
        (((categoryFilter_sublist _ _).trans (typeFilter_sublist _ _)).trans
          (accountTransactions_sublist u sel s)) htm)
    exact (computeBalance_congr_perm hperm).trans
      (computeBalance_eq_specBalance _ hmem)

/-- Witness for C3 on the sample ledger. -/
theorem C3_balance_over_filtered_witness :
    (∀ t ∈ s7.transactions, t.type = "Income" ∨ t.type = "Expense") ∧
    dashboard 2 (some 7) none none none s7 = .ok ([tx1], 100) ∧
    ((100 : ℚ) = specBalance (categoryFilter none (typeFilter none
        (accountTransactions 2 (some 7) s7))) ∧
     computeBalance [] = 0 ∧ specBalance [] = 0) := by
  have hdash : dashboard 2 (some 7) none none none s7 = .ok ([tx1], 100) := by
    simp only [dashboard]
    norm_num [sortStage, accountTransactions, selectedAccount, s7, typeFilter,
      categoryFilter, computeBalance, tx1, acct7]
  exact ⟨by decide, hdash,
    C3_balance_over_filtered 2 (some 7) none none none s7 [tx1] 100 (by decide) hdash⟩

end FinanceTracker
